import Mathlib

/-!
Verification of the climate-record parser in
`src/exercises/advanced_errors/advanced_errs2.rs`.

The Rust code is shallowly embedded: strings are Lean `String`s (the parser
works on their `List Char` contents), Rust's `u32::from_str` and
`f32::from_str` are modelled after the standard library's decimal parsers,
and `f32` values are represented abstractly: `F32.finite q` stands for the
binary32 value obtained by correctly rounding the exact decimal value
`q : Rat` of the accepted literal, and `F32.inf`/`F32.nan` for the special
tokens.  No claim below depends on the rounding itself, only on which
literal was accepted and on equality of results.
-/

deriving instance DecidableEq for Except

namespace AdvancedErrs2

/-- Model of `std::num::ParseIntError` for `u32` parsing: the reachable
error kinds of `u32::from_str` (`Empty`, `InvalidDigit`, `PosOverflow`). -/
inductive ParseIntError where
  | empty
  | invalidDigit
  | posOverflow
deriving DecidableEq

/-- Model of `std::num::ParseFloatError`: `f32::from_str` fails either on
empty input or on an invalid literal. -/
inductive ParseFloatError where
  | empty
  | invalid
deriving DecidableEq

/-- The `Display` text of `std::num::ParseFloatError` (interpolated by the
`ParseFloat` arm of the error rendering). -/
def floatErrorDescription : ParseFloatError → String
  | .empty => "cannot parse float from empty string"
  | .invalid => "invalid float literal"

/-- Abstract `f32`: `finite m e` is the binary32 correctly rounded from the
exact decimal value `m * 10 ^ e` of the accepted literal; `inf b` is the
infinity of sign `b` from an `inf`/`infinity` token; `nan` from a `nan`
token. -/
inductive F32 where
  | finite (m : Int) (e : Int)
  | inf (neg : Bool)
  | nan
deriving DecidableEq

/-- The rational `m * 10 ^ e` denoted by the payload of `F32.finite`. -/
def decimalValue (m e : Int) : Rat :=
  if 0 ≤ e then (m : Rat) * 10 ^ e.toNat else (m : Rat) / 10 ^ (-e).toNat

/-- `u32::MAX`. -/
def u32Max : Nat := 4294967295

/-- Rust `char::to_digit(10)`. -/
def digitVal (c : Char) : Option Nat :=
  if c.isDigit then some (c.toNat - 48) else none

/-- The digit loop of Rust `from_str_radix` for `u32` (radix 10):
`checked_mul`/`checked_add` fail with `PosOverflow` exactly when the
accumulated value would exceed `u32::MAX`. -/
def parseDigits (acc : Nat) : List Char → Except ParseIntError Nat
  | [] => .ok acc
  | c :: cs =>
    match digitVal c with
    | none => .error .invalidDigit
    | some d =>
      if acc * 10 + d > u32Max then .error .posOverflow
      else parseDigits (acc * 10 + d) cs

/-- Model of `u32::from_str` (`year.parse::<u32>()`): empty input fails with
`Empty`; a leading `+` is stripped (alone it is `InvalidDigit`); a leading
`-` is not a digit for an unsigned type, so it fails with `InvalidDigit`. -/
def parseU32 (s : List Char) : Except ParseIntError Nat :=
  match s with
  | [] => .error .empty
  | c :: rest =>
    if c = '+' then
      if rest = [] then .error .invalidDigit else parseDigits 0 rest
    else parseDigits 0 (c :: rest)

/-- Value of a list of decimal digits, most significant first. -/
def digitsToNat (acc : Nat) : List Char → Nat
  | [] => acc
  | c :: cs => digitsToNat (acc * 10 + (c.toNat - 48)) cs

/-- The exact decimal value `sign * mantissa * 10 ^ e` as an abstract f32. -/
def mkFinite (neg : Bool) (mant : Nat) (e : Int) : F32 :=
  .finite (if neg then -(mant : Int) else (mant : Int)) e

/-- Rust `eq_ignore_ascii_case` on character lists. -/
def eqIgnoreCase (a b : List Char) : Bool :=
  a.map (fun c => if 'A' ≤ c ∧ c ≤ 'Z' then Char.ofNat (c.toNat + 32) else c)
    == b.map (fun c => if 'A' ≤ c ∧ c ≤ 'Z' then Char.ofNat (c.toNat + 32) else c)

/-- Model of `dec2flt`'s `parse_inf_nan`: after the sign, the whole remaining
text must be `inf`, `infinity` or `nan`, ASCII case-insensitively. -/
def parseInfNan (s : List Char) (neg : Bool) : Option F32 :=
  if eqIgnoreCase s "inf".data || eqIgnoreCase s "infinity".data then some (.inf neg)
  else if eqIgnoreCase s "nan".data then some (.nan)
  else none

/-- Model of `dec2flt`'s `parse_number`: digits, an optional fraction after
`.`, at least one digit overall, an optional exponent `e`/`E` with optional
sign and at least one digit, and nothing left over. -/
def parseNumber (s : List Char) (neg : Bool) : Option F32 :=
  let intDigits := s.takeWhile Char.isDigit
  let r1 := s.dropWhile Char.isDigit
  let fracDigits :=
    match r1 with
    | '.' :: rest => rest.takeWhile Char.isDigit
    | _ => []
  let r2 :=
    match r1 with
    | '.' :: rest => rest.dropWhile Char.isDigit
    | _ => r1
  if intDigits.length + fracDigits.length = 0 then none
  else
    let mant := digitsToNat 0 (intDigits ++ fracDigits)
    let e0 : Int := -(fracDigits.length : Int)
    match r2 with
    | [] => some (mkFinite neg mant e0)
    | c :: rest =>
      if c = 'e' ∨ c = 'E' then
        let expNeg := match rest with
          | '-' :: _ => true
          | _ => false
        let ds := match rest with
          | '+' :: t => t
          | '-' :: t => t
          | t => t
        let eDigits := ds.takeWhile Char.isDigit
        let r3 := ds.dropWhile Char.isDigit
        if eDigits = [] ∨ r3 ≠ [] then none
        else
          let ev : Int := digitsToNat 0 eDigits
          some (mkFinite neg mant (e0 + (if expNeg then -ev else ev)))
      else none

/-- Model of `f32::from_str` (`temp.parse::<f32>()`): empty input fails with
the empty-string error; a leading `-`/`+` sign is recorded and stripped; the
rest must be a decimal number or an `inf`/`infinity`/`nan` token, else the
invalid-literal error. -/
def parseF32 (s : List Char) : Except ParseFloatError F32 :=
  match s with
  | [] => .error .empty
  | c :: rest =>
    let neg := c = '-'
    let body := if c = '-' ∨ c = '+' then rest else c :: rest
    if body = [] then .error .invalid
    else
      match parseNumber body neg with
      | some v => .ok v
      | none =>
        match parseInfNan body neg with
        | some v => .ok v
        | none => .error .invalid

/-- The custom error type `ParseClimateError` of the Rust source, with its
five variants (`ParseInt`/`ParseFloat` wrap the inner conversion errors,
as installed by the two `From` impls). -/
inductive ParseClimateError where
  | Empty
  | BadLen
  | NoCity
  | ParseInt (e : ParseIntError)
  | ParseFloat (e : ParseFloatError)
deriving DecidableEq

/-- The `Climate` record: `city: String`, `year: u32` (modelled as `Nat`;
`parseU32` never returns a value above `u32Max`), `temp: f32`. -/
structure Climate where
  city : String
  year : Nat
  temp : F32
deriving DecidableEq

/-- The explicit arms of the `Display` match in the Rust source, in order:
`Empty`, `BadLen`, `NoCity`, `ParseInt(_e)` (a fixed message, the inner
error unused), `ParseFloat(e)` (interpolating the inner error's text). -/
def renderArm : ParseClimateError → Option String
  | .Empty => some "empty input"
  | .BadLen => some "incorrect number of fields"
  | .NoCity => some "no city name"
  | .ParseInt _ => some "error parsing year: invalid digit found in string"
  | .ParseFloat e => some ("error parsing temperature: " ++ floatErrorDescription e)

/-- The full `Display` implementation: the listed arms, with the wildcard
arm `_ => "unhandled error!"` as the fallback. -/
def render (e : ParseClimateError) : String :=
  (renderArm e).getD "unhandled error!"

/-- A value reachable through the error-chain accessor: one of the two
wrapped conversion errors. -/
inductive ErrorCause where
  | int (e : ParseIntError)
  | float (e : ParseFloatError)
deriving DecidableEq

/-- The error-chain accessor as written in the source: the line
`impl Error for ParseClimateError \x7b\x7d` is commented out, and even taken
at face value its empty body leaves the default `Error::cause`, which
returns `None` for every variant. -/
def causeAsWritten (_ : ParseClimateError) : Option ErrorCause := none

/-- Rust `s.split(',')` collected to a vector: splits at every comma,
preserving empty fields; the empty string yields one empty field. -/
def splitComma : List Char → List (List Char)
  | [] => [[]]
  | c :: rest =>
    match splitComma rest with
    | [] => [[c]]
    | f :: fs => if c = ',' then [] :: f :: fs else (c :: f) :: fs

/-- Steps 3-6 of `Climate::from_str` after the destructuring: reject an
empty city, parse the year (a failure wrapped into `ParseInt` by `?`), then
the temperature (wrapped into `ParseFloat`), and build the record. -/
def parseFields (city year temp : List Char) : Except ParseClimateError Climate :=
  if city = [] then .error .NoCity
  else
    match parseU32 year with
    | .error e => .error (.ParseInt e)
    | .ok y =>
      match parseF32 temp with
      | .error e => .error (.ParseFloat e)
      | .ok t => .ok ⟨⟨city⟩, y, t⟩

/-- `Climate::from_str`: reject the empty string, split on commas, require
exactly three fields, then `parseFields`. -/
def from_str (s : String) : Except ParseClimateError Climate :=
  if s.data = [] then .error .Empty
  else
    match splitComma s.data with
    | [city, year, temp] => parseFields city year temp
    | _ => .error .BadLen

/- Sanity checks of the numeric-parser models against the behaviour of the
Rust standard library on boundary literals. -/
example : parseF32 "-inf".data = .ok (.inf true) := by decide
example : parseF32 "2.5e3".data = .ok (.finite 25 2) := by decide
example : parseF32 "-0.5".data = .ok (.finite (-5) (-1)) := by decide
example : parseF32 "1e".data = .error .invalid := by decide
example : parseF32 ".".data = .error .invalid := by decide
example : parseF32 "NaN".data = .ok .nan := by decide
example : parseF32 "1.".data = .ok (.finite 1 0) := by decide
example : parseU32 "4294967296".data = .error .posOverflow := by decide
example : parseU32 "+1999".data = .ok 1999 := by decide
example : parseU32 "-1".data = .error .invalidDigit := by decide
example : parseU32 "".data = .error .empty := by decide

/-- Claim C1: the spec requires `cause()` to return the wrapped conversion
failure for `InvalidYear`/`InvalidMeasurement` and nothing otherwise; the
source comments out the whole `impl Error for ParseClimateError`, whose
empty body would anyway leave the default `cause` returning `None` for
every variant (and without which `main`'s `?` into `Box<dyn Error>` cannot
compile).  At the failing input the parser does produce the wrapping
variant, yet the accessor as written yields no cause for it. -/
theorem C1_cause_missing :
    from_str "City,nineteen,25.7" = .error (.ParseInt .invalidDigit)
    ∧ (∀ e : ParseIntError, causeAsWritten (.ParseInt e) = none)
    ∧ (∀ e : ParseFloatError, causeAsWritten (.ParseFloat e) = none) :=
  ⟨by decide, fun _ => rfl, fun _ => rfl⟩

/-- Claim C2: every `ParseInt` error renders to the one fixed string
"error parsing year: invalid digit found in string" (the inner failure is
never interpolated), and `parse("City,nineteen,25.7")` yields exactly an
invalid-digit `ParseInt` error with that rendering. -/
theorem C2_year_message_fixed :
    (∀ e : ParseIntError,
      render (.ParseInt e) = "error parsing year: invalid digit found in string")
    ∧ from_str "City,nineteen,25.7" = .error (.ParseInt .invalidDigit)
    ∧ render (.ParseInt .invalidDigit)
        = "error parsing year: invalid digit found in string" :=
  ⟨fun _ => rfl, by decide, rfl⟩

/-- Claim C3: every `ParseFloat` error renders by interpolating the inner
failure's own message verbatim (it appears as a suffix of the rendering),
and `parse("City,1999,hot")` yields a `ParseFloat` error whose rendering
contains the library's "invalid float literal" text. -/
theorem C3_measurement_message_interpolated :
    (∀ e : ParseFloatError,
      render (.ParseFloat e) = "error parsing temperature: " ++ floatErrorDescription e)
    ∧ from_str "City,1999,hot" = .error (.ParseFloat .invalid)
    ∧ render (.ParseFloat .invalid) = "error parsing temperature: invalid float literal"
    ∧ (∀ e : ParseFloatError,
        List.IsSuffix (floatErrorDescription e).data (render (.ParseFloat e)).data) := by
  refine ⟨fun _ => rfl, by decide, rfl, ?_⟩
  intro e
  exact ⟨"error parsing temperature: ".data, by cases e <;> rfl⟩

/-- Claim C4: `parse("Hong Kong,1999,25.7")` succeeds with city
"Hong Kong", year 1999, and the f32 parsed from the literal `25.7`
(exact decimal value 257 * 10 ^ (-1) = 25.7). -/
theorem C4_happy_path :
    from_str "Hong Kong,1999,25.7" = .ok ⟨"Hong Kong", 1999, .finite 257 (-1)⟩
    ∧ decimalValue 257 (-1) = 257 / 10 :=
  ⟨by decide, by norm_num [decimalValue]⟩

/-- Claim C5: the empty string is rejected as `Empty`, not `BadLen`: the
zero-length check runs before the split, and splitting the empty string
would have produced one (empty) field. -/
theorem C5_empty_input :
    from_str "" = .error .Empty
    ∧ from_str "" ≠ .error .BadLen
    ∧ splitComma [] = [[]] :=
  ⟨by decide, by decide, rfl⟩

/-- Claim C6: every non-empty input whose comma split has a field count
other than three is rejected as `BadLen`; in particular the two-field and
four-field examples are. -/
theorem C6_wrong_field_count :
    (∀ s : String, s.data ≠ [] → (splitComma s.data).length ≠ 3 →
      from_str s = .error .BadLen)
    ∧ from_str "a,b" = .error .BadLen
    ∧ from_str "a,b,c,d" = .error .BadLen := by
  refine ⟨?_, by decide, by decide⟩
  intro s h1 h2
  unfold from_str
  rw [if_neg h1]
  generalize hl : splitComma s.data = l
  rw [hl] at h2
  rcases l with _ | ⟨a, _ | ⟨b, _ | ⟨c, _ | ⟨d, t⟩⟩⟩⟩
  · rfl
  · rfl
  · rfl
  · exact absurd rfl h2
  · rfl

/-- Witness for C6 at the one-field input "x". -/
theorem C6_wrong_field_count_witness : from_str "x" = .error .BadLen :=
  C6_wrong_field_count.1 "x" (by decide) (by decide)

/-- Claim C7: every non-empty input splitting into exactly three fields
whose first field is empty is rejected as `NoCity`; in particular
`parse(",1999,25.7")` is. -/
theorem C7_missing_identifier :
    (∀ (s : String) (y t : List Char), s.data ≠ [] →
      splitComma s.data = [[], y, t] → from_str s = .error .NoCity)
    ∧ from_str ",1999,25.7" = .error .NoCity := by
  refine ⟨?_, by decide⟩
  intro s y t h1 h2
  unfold from_str
  rw [if_neg h1, h2]
  exact rfl

/-- Witness for C7 at the input ",a,b". -/
theorem C7_missing_identifier_witness : from_str ",a,b" = .error .NoCity :=
  C7_missing_identifier.1 ",a,b" "a".data "b".data (by decide) (by decide)

/-- Claim C8: binding is positional and the year conversion runs first:
whenever the year field fails to convert, the result is its `ParseInt`
error no matter what the measurement field holds, and swapping the numeric
fields as in `parse("City,25.7,1999")` fails with an invalid-digit
`ParseInt` error rather than succeeding or failing on the measurement. -/
theorem C8_year_parsed_before_measurement :
    (∀ (city y t : List Char) (e : ParseIntError), city ≠ [] →
      parseU32 y = .error e → parseFields city y t = .error (.ParseInt e))
    ∧ from_str "City,25.7,1999" = .error (.ParseInt .invalidDigit) := by
  refine ⟨?_, by decide⟩
  intro city y t e hc he
  unfold parseFields
  rw [if_neg hc, he]

/-- Witness for C8: a bad year field preempts the measurement field. -/
theorem C8_year_parsed_before_measurement_witness :
    parseFields "C".data "x".data "9".data = .error (.ParseInt .invalidDigit) :=
  C8_year_parsed_before_measurement.1 "C".data "x".data "9".data
    .invalidDigit (by decide) (by decide)

/-- Claim C9: the parser is a pure function of its input: equal inputs give
equal results (the embedding threads no state, mirroring the source, whose
`from_str` touches no statics and performs no I/O). -/
theorem C9_parse_deterministic :
    ∀ s1 s2 : String, s1 = s2 → from_str s1 = from_str s2 := by
  intro s1 s2 h
  rw [h]

/-- Witness for C9 at the example input. -/
theorem C9_parse_deterministic_witness :
    from_str "Hong Kong,1999,25.7" = from_str "Hong Kong,1999,25.7" :=
  C9_parse_deterministic "Hong Kong,1999,25.7" "Hong Kong,1999,25.7" rfl

/-- Claim C10: the wildcard arm of the `Display` match is unreachable:
every error value renders to one of the five specified messages and never
to "unhandled error!". -/
theorem C10_wildcard_unreachable :
    ∀ e : ParseClimateError,
      (render e = "empty input"
        ∨ render e = "incorrect number of fields"
        ∨ render e = "no city name"
        ∨ render e = "error parsing year: invalid digit found in string"
        ∨ (∃ fe : ParseFloatError, e = .ParseFloat fe
            ∧ render e = "error parsing temperature: " ++ floatErrorDescription fe))
      ∧ render e ≠ "unhandled error!" := by
  intro e
  cases e with
  | Empty => exact ⟨.inl rfl, by decide⟩
  | BadLen => exact ⟨.inr (.inl rfl), by decide⟩
  | NoCity => exact ⟨.inr (.inr (.inl rfl)), by decide⟩
  | ParseInt e2 => exact ⟨.inr (.inr (.inr (.inl rfl))), by cases e2 <;> decide⟩
  | ParseFloat e2 =>
    exact ⟨.inr (.inr (.inr (.inr ⟨e2, rfl, rfl⟩))), by cases e2 <;> decide⟩

end AdvancedErrs2
